import Mathlib

/-!
Shallow embedding of `include/swift/AST/ActorIsolation.h`.

Modelling conventions:
- Declaration references (`NominalTypeDecl *`, `VarDecl *`, `Expr *`) and `Type`
  payloads share one union slot in the source; we model the slot as `Option Nat`
  (an abstract reference identity, `none` = null pointer / null `Type()`).
- Canonical type equality (`areTypesEqual`) collapses to equality of the
  abstract reference in this model.
- The C++ bitfield `unsigned parameterIndex : 27` is modelled by storing
  values modulo `2 ^ 27`; the `kind : 3` field always holds one of the five
  enumerators so no truncation is modelled there.
- `llvm::hash_combine` is modelled as the tuple of its arguments: it is a
  deterministic function of exactly those arguments, so two calls agree
  exactly when the argument tuples agree.
-/

namespace Swift

/-- `ActorIsolation::Kind`: the closed five-way discriminant. -/
inductive Kind : Type where
  | Unspecified
  | ActorInstance
  | Nonisolated
  | NonisolatedUnsafe
  | GlobalActor
deriving DecidableEq, Repr

/-- `swift::Type` in payload position: `none` models the null `Type()`. -/
abbrev Ty : Type := Option Nat

/-- The `ActorIsolation` value: one payload slot (a union in the source),
the kind, the two metadata bits and the 27-bit parameter index. -/
structure ActorIsolation : Type where
  pointer : Option Nat
  kind : Kind
  isolatedByPreconcurrency : Bool
  silParsed : Bool
  parameterIndex : Nat
deriving DecidableEq, Repr

namespace ActorIsolation

/-- The public defaulted constructor `ActorIsolation(Kind kind, bool isSILParsed)`:
null pointer, preconcurrency false, index 0. -/
def ofKind (kind : Kind) (isSILParsed : Bool) : ActorIsolation :=
  { pointer := none, kind := kind, isolatedByPreconcurrency := false,
    silParsed := isSILParsed, parameterIndex := 0 }

/-- `ActorIsolation::forUnspecified()`. -/
def forUnspecified : ActorIsolation :=
  { pointer := none, kind := Kind.Unspecified, isolatedByPreconcurrency := false,
    silParsed := false, parameterIndex := 0 }

/-- `ActorIsolation::forNonisolated(bool)`: kind is `NonisolatedUnsafe` when the
flag is set, `Nonisolated` otherwise. -/
def forNonisolated (u : Bool) : ActorIsolation :=
  { pointer := none,
    kind := if u then Kind.NonisolatedUnsafe else Kind.Nonisolated,
    isolatedByPreconcurrency := false, silParsed := false, parameterIndex := 0 }

/-- Modelled from the spec: `ActorIsolation::forActorInstanceSelf` is only
declared in the header (its body lives outside this source). Per the spec,
constructing actor-instance isolation from "self" stores the reserved
receiver index 0 with the referenced declaration as payload. -/
def forActorInstanceSelf (decl : Nat) : ActorIsolation :=
  { pointer := some decl, kind := Kind.ActorInstance,
    isolatedByPreconcurrency := false, silParsed := false, parameterIndex := 0 }

/-- `ActorIsolation::forActorInstanceParameter(actor, parameterIndex)`: stores
`parameterIndex + 1` into the 27-bit `parameterIndex` bitfield. -/
def forActorInstanceParameter (actor : Nat) (parameterIndex : Nat) : ActorIsolation :=
  { pointer := some actor, kind := Kind.ActorInstance,
    isolatedByPreconcurrency := false, silParsed := false,
    parameterIndex := (parameterIndex + 1) % 2 ^ 27 }

/-- `ActorIsolation::forActorInstanceCapture(capturedActor)`: stores index 0. -/
def forActorInstanceCapture (capturedActor : Nat) : ActorIsolation :=
  { pointer := some capturedActor, kind := Kind.ActorInstance,
    isolatedByPreconcurrency := false, silParsed := false, parameterIndex := 0 }

/-- `ActorIsolation::forGlobalActor(Type)`. -/
def forGlobalActor (globalActor : Ty) : ActorIsolation :=
  { pointer := globalActor, kind := Kind.GlobalActor,
    isolatedByPreconcurrency := false, silParsed := false, parameterIndex := 0 }

/-- `ActorIsolation::forSILString(StringRef)`: the `StringSwitch` over the six
recognized keywords producing an optional kind, then the defaulted constructor
with `isSILParsed = true`; unrecognized strings yield `std::nullopt`. -/
def forSILString (string : String) : Option ActorIsolation :=
  match (if string = "unspecified" then some Kind.Unspecified
    else if string = "actor_instance" then some Kind.ActorInstance
    else if string = "nonisolated" then some Kind.Nonisolated
    else if string = "nonisolated_unsafe" then some Kind.NonisolatedUnsafe
    else if string = "global_actor" then some Kind.GlobalActor
    else if string = "global_actor_unsafe" then some Kind.GlobalActor
    else none : Option Kind) with
  | none => none
  | some k => some (ofKind k true)

/-- `ActorIsolation::getKind()`. -/
def getKind (v : ActorIsolation) : Kind := v.kind

/-- `ActorIsolation::isUnspecified()`. -/
def isUnspecified (v : ActorIsolation) : Bool := decide (v.kind = Kind.Unspecified)

/-- `ActorIsolation::isNonisolated()`. -/
def isNonisolated (v : ActorIsolation) : Bool :=
  decide (v.kind = Kind.Nonisolated) || decide (v.kind = Kind.NonisolatedUnsafe)

/-- `ActorIsolation::getActorInstanceParameter()`: the `assert(getKind() ==
ActorInstance)` precondition is modelled by returning `none` when it would
fail, `some` of the stored index when it passes. -/
def getActorInstanceParameter (v : ActorIsolation) : Option Nat :=
  if v.kind = Kind.ActorInstance then some v.parameterIndex else none

/-- `ActorIsolation::isSILParsed()`. -/
def isSILParsed (v : ActorIsolation) : Bool := v.silParsed

/-- `ActorIsolation::isActorIsolated()`: the exhaustive switch over the kind. -/
def isActorIsolated (v : ActorIsolation) : Bool :=
  match v.getKind with
  | Kind.ActorInstance => true
  | Kind.GlobalActor => true
  | Kind.Unspecified => false
  | Kind.Nonisolated => false
  | Kind.NonisolatedUnsafe => false

/-- `ActorIsolation::isGlobalActor()`. -/
def isGlobalActor (v : ActorIsolation) : Bool := decide (v.getKind = Kind.GlobalActor)

/-- `ActorIsolation::getGlobalActor()`: the `assert(isGlobalActor())`
precondition is modelled by the outer `Option` (`none` = assertion failure);
when it passes, a SIL-parsed value returns the null `Type()` sentinel and
otherwise the stored payload is returned. -/
def getGlobalActor (v : ActorIsolation) : Option Ty :=
  if v.isGlobalActor = true then
    some (if v.silParsed = true then (none : Ty) else v.pointer)
  else none

/-- `ActorIsolation::preconcurrency()`. -/
def preconcurrency (v : ActorIsolation) : Bool := v.isolatedByPreconcurrency

/-- `ActorIsolation::withPreconcurrency(bool)`: copies the value and sets the
`isolatedByPreconcurrency` bit. -/
def withPreconcurrency (v : ActorIsolation) (value : Bool) : ActorIsolation :=
  { v with isolatedByPreconcurrency := value }

/-- Modelled from the spec: `ActorIsolation::isEqual` is only declared in the
header (its body lives outside this source). Per the spec, equality is
structural over kind and payload only: same kind, and for `ActorInstance` the
same referenced actor and parameter index, for `GlobalActor` the same type
payload; the preconcurrency and degraded flags are excluded. -/
def isEqual (lhs rhs : ActorIsolation) : Bool :=
  if lhs.kind ≠ rhs.kind then false
  else match lhs.kind with
    | Kind.ActorInstance =>
        decide (lhs.pointer = rhs.pointer) && decide (lhs.parameterIndex = rhs.parameterIndex)
    | Kind.GlobalActor => decide (lhs.pointer = rhs.pointer)
    | _ => true

/-- Modelled from the spec: `ActorIsolation::subst` is only declared in the
header. Per the spec, for `GlobalActor` it rewrites the payload type under the
substitution and for kinds with no type-bearing payload it returns the value
unchanged. A `SubstitutionMap` is modelled as a map on abstract types. -/
def subst (v : ActorIsolation) (subs : Nat → Nat) : ActorIsolation :=
  match v.kind with
  | Kind.GlobalActor => { v with pointer := Option.map subs v.pointer }
  | _ => v

/-- `ActorIsolation::print(raw_ostream)`: the text sent to the stream, an
exhaustive switch over the kind. -/
def print (v : ActorIsolation) : String :=
  match v.getKind with
  | Kind.Unspecified => "unspecified"
  | Kind.ActorInstance => "actor_instance"
  | Kind.Nonisolated => "nonisolated"
  | Kind.NonisolatedUnsafe => "nonisolated_unsafe"
  | Kind.GlobalActor => "global_actor"

end ActorIsolation

/-- `friend llvm::hash_code hash_value(const ActorIsolation &)`: the hash is
`hash_combine(kind, pointer, isolatedByPreconcurrency, parameterIndex)`,
modelled as the tuple of exactly those four fields. -/
def hash_value (state : ActorIsolation) : Kind × Option Nat × Bool × Nat :=
  (state.kind, state.pointer, state.isolatedByPreconcurrency, state.parameterIndex)

/-- `swift::ApplyIsolationCrossing`: the caller and callee isolation at one
call site. -/
structure ApplyIsolationCrossing : Type where
  CallerIsolation : ActorIsolation
  CalleeIsolation : ActorIsolation
deriving DecidableEq, Repr

namespace ApplyIsolationCrossing

/-- The default `ApplyIsolationCrossing()` constructor. -/
def ofDefault : ApplyIsolationCrossing :=
  { CallerIsolation := ActorIsolation.forUnspecified,
    CalleeIsolation := ActorIsolation.forUnspecified }

/-- `ApplyIsolationCrossing::exitsIsolation()`. -/
def exitsIsolation (x : ApplyIsolationCrossing) : Bool :=
  !x.CalleeIsolation.isActorIsolated

/-- `ApplyIsolationCrossing::getDiagnoseIsolation()`. -/
def getDiagnoseIsolation (x : ApplyIsolationCrossing) : ActorIsolation :=
  if x.exitsIsolation then x.CallerIsolation else x.CalleeIsolation

end ApplyIsolationCrossing

/-- Values constructible through the public interface: the factories, textual
decoding, and the derived-copy / substitution operations. -/
inductive Reachable : ActorIsolation → Prop where
  | ofDefault (k : Kind) (b : Bool) : Reachable (ActorIsolation.ofKind k b)
  | unspecified : Reachable ActorIsolation.forUnspecified
  | nonisolated (u : Bool) : Reachable (ActorIsolation.forNonisolated u)
  | instanceParameter (a i : Nat) : Reachable (ActorIsolation.forActorInstanceParameter a i)
  | instanceCapture (c : Nat) : Reachable (ActorIsolation.forActorInstanceCapture c)
  | globalActor (t : Ty) : Reachable (ActorIsolation.forGlobalActor t)
  | silString (s : String) (v : ActorIsolation) :
      ActorIsolation.forSILString s = some v → Reachable v
  | withPre (v : ActorIsolation) (b : Bool) :
      Reachable v → Reachable (v.withPreconcurrency b)
  | substituted (v : ActorIsolation) (s : Nat → Nat) :
      Reachable v → Reachable (v.subst s)

/-- Values constructible through the five ordinary public factories and the
derived-copy / substitution operations, with textual decoding excluded. -/
inductive ReachableNoSIL : ActorIsolation → Prop where
  | unspecified : ReachableNoSIL ActorIsolation.forUnspecified
  | nonisolated (u : Bool) : ReachableNoSIL (ActorIsolation.forNonisolated u)
  | instanceParameter (a i : Nat) : ReachableNoSIL (ActorIsolation.forActorInstanceParameter a i)
  | instanceCapture (c : Nat) : ReachableNoSIL (ActorIsolation.forActorInstanceCapture c)
  | globalActor (t : Ty) : ReachableNoSIL (ActorIsolation.forGlobalActor t)
  | withPre (v : ActorIsolation) (b : Bool) :
      ReachableNoSIL v → ReachableNoSIL (v.withPreconcurrency b)
  | substituted (v : ActorIsolation) (s : Nat → Nat) :
      ReachableNoSIL v → ReachableNoSIL (v.subst s)

/-- Representation invariant maintained by every public construction: outside
`ActorInstance` the parameter index is the unused 0, and kinds with no payload
carry the null pointer. -/
def ActorIsolation.WF (v : ActorIsolation) : Prop :=
  (v.kind ≠ Kind.ActorInstance → v.parameterIndex = 0) ∧
  ((v.kind = Kind.Unspecified ∨ v.kind = Kind.Nonisolated ∨
      v.kind = Kind.NonisolatedUnsafe) → v.pointer = none)

/-! Helper lemmas shared by the claim theorems. -/

/-- Every value textual decoding produces is built by the defaulted constructor
with the SIL-parsed bit set. -/
theorem ActorIsolation.forSILString_some (s : String) (v : ActorIsolation)
    (h : ActorIsolation.forSILString s = some v) :
    ∃ k, v = ActorIsolation.ofKind k true := by
  unfold ActorIsolation.forSILString at h
  split at h
  · exact Option.noConfusion h
  · exact ⟨_, (Option.some.inj h).symm⟩

/-- Substitution never changes the kind. -/
theorem ActorIsolation.subst_kind (v : ActorIsolation) (s : Nat → Nat) :
    (v.subst s).kind = v.kind := by
  obtain ⟨p, k, pre, sil, i⟩ := v
  cases k <;> rfl

/-- Substitution never changes the parameter index. -/
theorem ActorIsolation.subst_parameterIndex (v : ActorIsolation) (s : Nat → Nat) :
    (v.subst s).parameterIndex = v.parameterIndex := by
  obtain ⟨p, k, pre, sil, i⟩ := v
  cases k <;> rfl

/-- Substitution never changes the SIL-parsed bit. -/
theorem ActorIsolation.subst_silParsed (v : ActorIsolation) (s : Nat → Nat) :
    (v.subst s).silParsed = v.silParsed := by
  obtain ⟨p, k, pre, sil, i⟩ := v
  cases k <;> rfl

/-- Substitution leaves the payload slot alone outside `GlobalActor`. -/
theorem ActorIsolation.subst_pointer_of_no_payload (v : ActorIsolation) (s : Nat → Nat)
    (h : v.kind ≠ Kind.GlobalActor) : (v.subst s).pointer = v.pointer := by
  obtain ⟨p, k, pre, sil, i⟩ := v
  cases k <;> first | rfl | exact absurd rfl h

/-- Every publicly constructible value satisfies the representation
invariant. -/
theorem reachable_wf (v : ActorIsolation) (h : Reachable v) : v.WF := by
  induction h with
  | ofDefault k b => exact ⟨fun _ => rfl, fun _ => rfl⟩
  | unspecified => exact ⟨fun _ => rfl, fun _ => rfl⟩
  | nonisolated u => cases u <;> exact ⟨fun _ => rfl, fun _ => rfl⟩
  | instanceParameter a i =>
      exact ⟨fun h => absurd rfl h, fun h => by rcases h with h|h|h <;> exact Kind.noConfusion h⟩
  | instanceCapture c =>
      exact ⟨fun h => absurd rfl h, fun h => by rcases h with h|h|h <;> exact Kind.noConfusion h⟩
  | globalActor t =>
      exact ⟨fun _ => rfl, fun h => by rcases h with h|h|h <;> exact Kind.noConfusion h⟩
  | silString s w hw =>
      obtain ⟨k, rfl⟩ := ActorIsolation.forSILString_some s w hw
      exact ⟨fun _ => rfl, fun _ => rfl⟩
  | withPre w b _ ih => exact ih
  | substituted w s _ ih =>
      obtain ⟨h1, h2⟩ := ih
      refine ⟨?_, ?_⟩
      · rw [ActorIsolation.subst_kind, ActorIsolation.subst_parameterIndex]
        exact h1
      · intro hk
        rw [ActorIsolation.subst_kind] at hk
        have hne : w.kind ≠ Kind.GlobalActor := by
          rcases hk with h|h|h <;> rw [h] <;> decide
        rw [ActorIsolation.subst_pointer_of_no_payload w s hne]
        exact h2 hk

/-! Claim theorems. -/

/-- C1 counterexample: two values differing only in the preconcurrency flag are
equal under the structural equality, yet they hash differently, because the
hash combines the preconcurrency flag while equality excludes it. -/
theorem C1_counterexample :
    ActorIsolation.isEqual ActorIsolation.forUnspecified
        (ActorIsolation.forUnspecified.withPreconcurrency true) = true ∧
    hash_value ActorIsolation.forUnspecified ≠
      hash_value (ActorIsolation.forUnspecified.withPreconcurrency true) := by
  decide

/-- C1 (amended): hashing refines equality only together with the
preconcurrency flag: for publicly constructible values `a` and `b`, if `a`
and `b` are equal under the structural equality and additionally agree on the
preconcurrency flag, then they hash equally. -/
theorem C1_hash_refines_equality_with_flag (a b : ActorIsolation)
    (ha : Reachable a) (hb : Reachable b)
    (heq : ActorIsolation.isEqual a b = true)
    (hpre : a.isolatedByPreconcurrency = b.isolatedByPreconcurrency) :
    hash_value a = hash_value b := by
  have wa := reachable_wf a ha
  have wb := reachable_wf b hb
  simp only [ActorIsolation.WF] at wa wb
  obtain ⟨pa, ka, prea, sila, ia⟩ := a
  obtain ⟨pb, kb, preb, silb, ib⟩ := b
  cases ka <;> cases kb <;>
    simp_all [ActorIsolation.isEqual, hash_value]

/-- C1 witness: the amended theorem applied at two concrete equal values. -/
theorem C1_hash_refines_equality_with_flag_witness :
    hash_value ActorIsolation.forUnspecified =
      hash_value (ActorIsolation.forUnspecified.withPreconcurrency false) :=
  C1_hash_refines_equality_with_flag _ _ Reachable.unspecified
    (Reachable.withPre _ false Reachable.unspecified) (by decide) (by decide)

/-- C2: textual decoding maps exactly the six recognized strings to values of
the matching kind, every decoded value has the SIL-parsed (degraded) bit set,
and every other string decodes to the absent sentinel. -/
theorem C2_forSILString_decoding :
    ActorIsolation.forSILString "unspecified"
        = some (ActorIsolation.ofKind Kind.Unspecified true) ∧
    ActorIsolation.forSILString "actor_instance"
        = some (ActorIsolation.ofKind Kind.ActorInstance true) ∧
    ActorIsolation.forSILString "nonisolated"
        = some (ActorIsolation.ofKind Kind.Nonisolated true) ∧
    ActorIsolation.forSILString "nonisolated_unsafe"
        = some (ActorIsolation.ofKind Kind.NonisolatedUnsafe true) ∧
    ActorIsolation.forSILString "global_actor"
        = some (ActorIsolation.ofKind Kind.GlobalActor true) ∧
    ActorIsolation.forSILString "global_actor_unsafe"
        = some (ActorIsolation.ofKind Kind.GlobalActor true) ∧
    (∀ s v, ActorIsolation.forSILString s = some v → v.isSILParsed = true) ∧
    (∀ s, s ≠ "unspecified" → s ≠ "actor_instance" → s ≠ "nonisolated" →
      s ≠ "nonisolated_unsafe" → s ≠ "global_actor" → s ≠ "global_actor_unsafe" →
      ActorIsolation.forSILString s = none) := by
  refine ⟨by decide, by decide, by decide, by decide, by decide, by decide, ?_, ?_⟩
  · intro s v h
    obtain ⟨k, rfl⟩ := ActorIsolation.forSILString_some s v h
    rfl
  · intro s h1 h2 h3 h4 h5 h6
    unfold ActorIsolation.forSILString
    simp [h1, h2, h3, h4, h5, h6]

/-- C2 witness: the decoding theorem applied at concrete strings. -/
theorem C2_forSILString_decoding_witness :
    ActorIsolation.forSILString "bogus" = none ∧
    (ActorIsolation.ofKind Kind.GlobalActor true).isSILParsed = true :=
  ⟨C2_forSILString_decoding.2.2.2.2.2.2.2 "bogus" (by decide) (by decide)
      (by decide) (by decide) (by decide) (by decide),
    C2_forSILString_decoding.2.2.2.2.2.2.1 "global_actor"
      (ActorIsolation.ofKind Kind.GlobalActor true) (by decide)⟩

/-- C3: on a value of kind `GlobalActor` whose SIL-parsed (degraded) bit is
set, `getGlobalActor` passes its precondition and returns the null `Type()`
sentinel, never a stale or default payload. -/
theorem C3_degraded_global_actor_payload (v : ActorIsolation)
    (hk : v.kind = Kind.GlobalActor) (hs : v.silParsed = true) :
    v.getGlobalActor = some (none : Ty) := by
  simp [ActorIsolation.getGlobalActor, ActorIsolation.isGlobalActor,
    ActorIsolation.getKind, hk, hs]

/-- C3 witness: the theorem applied at the decoded degraded global-actor
value. -/
theorem C3_degraded_global_actor_payload_witness :
    (ActorIsolation.ofKind Kind.GlobalActor true).getGlobalActor = some (none : Ty) :=
  C3_degraded_global_actor_payload (ActorIsolation.ofKind Kind.GlobalActor true) rfl rfl

/-- C4: `isActorIsolated` is true exactly on kinds `ActorInstance` and
`GlobalActor`, and `isNonisolated` is true exactly on kinds `Nonisolated` and
`NonisolatedUnsafe`, across all five kinds. -/
theorem C4_kind_predicates (v : ActorIsolation) :
    (v.isActorIsolated = true ↔
      (v.kind = Kind.ActorInstance ∨ v.kind = Kind.GlobalActor)) ∧
    (v.isNonisolated = true ↔
      (v.kind = Kind.Nonisolated ∨ v.kind = Kind.NonisolatedUnsafe)) := by
  obtain ⟨p, k, pre, sil, i⟩ := v
  cases k <;>
    simp [ActorIsolation.isActorIsolated, ActorIsolation.isNonisolated,
      ActorIsolation.getKind]

/-- C4 witness: the predicate theorem applied at a concrete actor-instance
value. -/
theorem C4_kind_predicates_witness :
    (ActorIsolation.forActorInstanceCapture 0).isActorIsolated = true :=
  (C4_kind_predicates (ActorIsolation.forActorInstanceCapture 0)).1.mpr (Or.inl rfl)

/-- C5 counterexample: the parameter index is stored in a 27-bit bitfield, so
at index `2 ^ 27 - 1 = 134217727` the stored `index + 1` wraps to `0` (the
receiver sentinel) instead of `index + 1`. -/
theorem C5_counterexample :
    (ActorIsolation.forActorInstanceParameter 7 134217727).getActorInstanceParameter
        = some 0 ∧
    (ActorIsolation.forActorInstanceParameter 7 134217727).getActorInstanceParameter
        ≠ some (134217727 + 1) := by
  decide

/-- C5 (amended): for every parameter index `i` with `i + 1 < 2 ^ 27` (the
width of the parameter-index bitfield), a value built by
`forActorInstanceParameter` reads back `i + 1`, and a value built from "self"
(`forActorInstanceSelf`) or by `forActorInstanceCapture` reads back the
reserved receiver sentinel `0`. -/
theorem C5_parameter_encoding (actor c d i : Nat) (h : i + 1 < 2 ^ 27) :
    (ActorIsolation.forActorInstanceParameter actor i).getActorInstanceParameter
        = some (i + 1) ∧
    (ActorIsolation.forActorInstanceSelf d).getActorInstanceParameter = some 0 ∧
    (ActorIsolation.forActorInstanceCapture c).getActorInstanceParameter = some 0 := by
  refine ⟨?_, rfl, rfl⟩
  have h' : i + 1 < 134217728 := h
  simp [ActorIsolation.forActorInstanceParameter,
    ActorIsolation.getActorInstanceParameter]
  omega

/-- C5 witness: the amended theorem applied at concrete indices. -/
theorem C5_parameter_encoding_witness :
    (ActorIsolation.forActorInstanceParameter 1 5).getActorInstanceParameter
        = some 6 ∧
    (ActorIsolation.forActorInstanceSelf 4).getActorInstanceParameter = some 0 ∧
    (ActorIsolation.forActorInstanceCapture 2).getActorInstanceParameter = some 0 :=
  C5_parameter_encoding 1 2 4 5 (by decide)

/-- C6: an isolation crossing exits isolation exactly when the callee
isolation is not actor isolated, and the isolation used for diagnostics is the
callee isolation unless the crossing is an exit, in which case it is the
caller isolation. -/
theorem C6_crossing_predicates (x : ApplyIsolationCrossing) :
    (x.exitsIsolation = true ↔ x.CalleeIsolation.isActorIsolated = false) ∧
    (x.CalleeIsolation.isActorIsolated = false →
      x.getDiagnoseIsolation = x.CallerIsolation) ∧
    (x.CalleeIsolation.isActorIsolated = true →
      x.getDiagnoseIsolation = x.CalleeIsolation) := by
  obtain ⟨caller, callee⟩ := x
  refine ⟨by simp [ApplyIsolationCrossing.exitsIsolation], ?_, ?_⟩ <;>
    intro h <;>
    simp [ApplyIsolationCrossing.getDiagnoseIsolation,
      ApplyIsolationCrossing.exitsIsolation, h]

/-- C6 witness: the crossing theorem applied at a concrete crossing that exits
isolation (actor-instance caller, nonisolated callee). -/
theorem C6_crossing_predicates_witness :
    (ApplyIsolationCrossing.mk (ActorIsolation.forActorInstanceCapture 3)
        (ActorIsolation.forNonisolated false)).getDiagnoseIsolation
      = ActorIsolation.forActorInstanceCapture 3 :=
  (C6_crossing_predicates (ApplyIsolationCrossing.mk
      (ActorIsolation.forActorInstanceCapture 3)
      (ActorIsolation.forNonisolated false))).2.1 (by decide)

/-- C7: printing emits exactly one of the five fixed lowercase keywords,
never the legacy alias, and the output is a function of the kind alone. -/
theorem C7_print_keywords (v : ActorIsolation) :
    (v.print = "unspecified" ∨ v.print = "actor_instance" ∨
      v.print = "nonisolated" ∨ v.print = "nonisolated_unsafe" ∨
      v.print = "global_actor") ∧
    v.print ≠ "global_actor_unsafe" ∧
    (∀ w : ActorIsolation, w.kind = v.kind → w.print = v.print) := by
  refine ⟨?_, ?_, ?_⟩
  · obtain ⟨p, k, pre, sil, i⟩ := v
    cases k <;> simp [ActorIsolation.print, ActorIsolation.getKind]
  · obtain ⟨p, k, pre, sil, i⟩ := v
    cases k <;> simp [ActorIsolation.print, ActorIsolation.getKind]
  · intro w h
    simp [ActorIsolation.print, ActorIsolation.getKind, h]

/-- C7 witness: the printing theorem applied at concrete values whose kinds
agree but whose flags and payload differ. -/
theorem C7_print_keywords_witness :
    (ActorIsolation.ofKind Kind.Unspecified true).print
      = ActorIsolation.forUnspecified.print :=
  (C7_print_keywords ActorIsolation.forUnspecified).2.2
    (ActorIsolation.ofKind Kind.Unspecified true) rfl

/-- C8: `withPreconcurrency` changes exactly the preconcurrency flag — kind,
payload, parameter index and the SIL-parsed bit are untouched — and setting
the flag and clearing it again yields a value structurally equal to the
original. -/
theorem C8_withPreconcurrency_frame (v : ActorIsolation) (b : Bool) :
    (v.withPreconcurrency b).kind = v.kind ∧
    (v.withPreconcurrency b).pointer = v.pointer ∧
    (v.withPreconcurrency b).parameterIndex = v.parameterIndex ∧
    (v.withPreconcurrency b).silParsed = v.silParsed ∧
    (v.withPreconcurrency b).isolatedByPreconcurrency = b ∧
    ActorIsolation.isEqual ((v.withPreconcurrency true).withPreconcurrency false) v
      = true := by
  refine ⟨rfl, rfl, rfl, rfl, rfl, ?_⟩
  obtain ⟨p, k, pre, sil, i⟩ := v
  cases k <;> simp [ActorIsolation.withPreconcurrency, ActorIsolation.isEqual]

/-- C8 witness: the frame theorem applied at a concrete value. -/
theorem C8_withPreconcurrency_frame_witness :
    (ActorIsolation.forUnspecified.withPreconcurrency true).isolatedByPreconcurrency
      = true :=
  (C8_withPreconcurrency_frame ActorIsolation.forUnspecified true).2.2.2.2.1

/-- C9: substitution is the identity on the kinds with no type-bearing
payload, and on a global-actor value it rewrites the payload type under the
substitution map. -/
theorem C9_subst_identity_and_rewrite (v : ActorIsolation) (s : Nat → Nat) (t : Nat) :
    ((v.kind = Kind.Unspecified ∨ v.kind = Kind.Nonisolated ∨
        v.kind = Kind.NonisolatedUnsafe) → v.subst s = v) ∧
    (ActorIsolation.forGlobalActor (some t)).subst s
      = ActorIsolation.forGlobalActor (some (s t)) := by
  constructor
  · intro h
    obtain ⟨p, k, pre, sil, i⟩ := v
    cases k <;> first
      | rfl
      | (rcases h with h|h|h <;> exact Kind.noConfusion h)
  · rfl

/-- C9 witness: the substitution theorem applied at a concrete nonisolated
value and a concrete global-actor payload. -/
theorem C9_subst_identity_and_rewrite_witness :
    ActorIsolation.forUnspecified.subst Nat.succ = ActorIsolation.forUnspecified ∧
    (ActorIsolation.forGlobalActor (some 2)).subst Nat.succ
      = ActorIsolation.forGlobalActor (some 3) :=
  ⟨(C9_subst_identity_and_rewrite ActorIsolation.forUnspecified Nat.succ 0).1
      (Or.inl rfl),
    (C9_subst_identity_and_rewrite ActorIsolation.forUnspecified Nat.succ 2).2⟩

/-- C10: the five ordinary public factories produce values with the
preconcurrency and SIL-parsed bits clear; the SIL-parsed bit never becomes set
in their closure under the derived-copy and substitution operations (so it
arises only from textual decoding); and every decoded value carries the null
payload pointer and parameter index 0, whatever its kind. -/
theorem C10_factory_flag_invariants :
    (ActorIsolation.forUnspecified.preconcurrency = false ∧
      ActorIsolation.forUnspecified.isSILParsed = false) ∧
    (∀ u : Bool, (ActorIsolation.forNonisolated u).preconcurrency = false ∧
      (ActorIsolation.forNonisolated u).isSILParsed = false) ∧
    (∀ a i : Nat,
      (ActorIsolation.forActorInstanceParameter a i).preconcurrency = false ∧
      (ActorIsolation.forActorInstanceParameter a i).isSILParsed = false) ∧
    (∀ c : Nat, (ActorIsolation.forActorInstanceCapture c).preconcurrency = false ∧
      (ActorIsolation.forActorInstanceCapture c).isSILParsed = false) ∧
    (∀ t : Ty, (ActorIsolation.forGlobalActor t).preconcurrency = false ∧
      (ActorIsolation.forGlobalActor t).isSILParsed = false) ∧
    (∀ v : ActorIsolation, ReachableNoSIL v → v.isSILParsed = false) ∧
    (∀ s v, ActorIsolation.forSILString s = some v →
      v.isSILParsed = true ∧ v.pointer = none ∧ v.parameterIndex = 0) := by
  refine ⟨⟨rfl, rfl⟩, fun u => ⟨rfl, rfl⟩, fun a i => ⟨rfl, rfl⟩,
    fun c => ⟨rfl, rfl⟩, fun t => ⟨rfl, rfl⟩, ?_, ?_⟩
  · intro v h
    induction h with
    | unspecified => rfl
    | nonisolated u => rfl
    | instanceParameter a i => rfl
    | instanceCapture c => rfl
    | globalActor t => rfl
    | withPre w b _ ih => exact ih
    | substituted w s _ ih =>
        show (w.subst s).silParsed = false
        rw [ActorIsolation.subst_silParsed]
        exact ih
  · intro s v h
    obtain ⟨k, rfl⟩ := ActorIsolation.forSILString_some s v h
    exact ⟨rfl, rfl, rfl⟩

/-- C10 witness: the invariant theorem applied at a concrete factory value and
at a concrete decoded actor-instance value. -/
theorem C10_factory_flag_invariants_witness :
    ActorIsolation.forUnspecified.isSILParsed = false ∧
    (ActorIsolation.ofKind Kind.ActorInstance true).parameterIndex = 0 :=
  ⟨C10_factory_flag_invariants.2.2.2.2.2.1 ActorIsolation.forUnspecified
      ReachableNoSIL.unspecified,
    (C10_factory_flag_invariants.2.2.2.2.2.2 "actor_instance"
      (ActorIsolation.ofKind Kind.ActorInstance true) (by decide)).2.2⟩

end Swift
